import Mathlib

set_option linter.unusedVariables false

/-!
Shallow embedding of the Defendr Nest camera client (src/Nest.js and
src/security/Auth.js), used to check the natural-language specification of
the repository against the code.

JavaScript values that matter here are modelled explicitly: a nullable
string is an Option String (none stands for null or undefined), JS
truthiness of such a value is the function truthy, and template-literal
interpolation of a nullable value is jsToString. A thrown JS exception is
a JsError value; a computation that can throw returns an Except JsError
result. Network effects are not executed: a request is represented by the
RequestOptions record the code builds, and the outcome of an
already-issued request or token exchange is passed in as a parameter of
the function that consumes it.

The configuration module src/constants.js is not among the sources, so the
URL strings it provides are opaque fields of a Config record taken as a
parameter; likewise the three process-environment secrets form an Env
record. No claim below depends on their concrete values.
-/

/-- Errors a modelled JavaScript computation can throw: a plain Error built by the
code, a ReferenceError from an unbound identifier, a TypeError from calling a
non-function, and a rejection from the network layer. -/
inductive JsError where
  | error (msg : String)
  | referenceError (msg : String)
  | typeError (msg : String)
  | netError (msg : String)
deriving DecidableEq

/-- Truthiness of a nullable JS string: null, undefined and the empty string are falsy. -/
def truthy : Option String → Bool
  | none => false
  | some s => !(s == "")

/-- Template-literal interpolation of a nullable JS string (null prints as the word null). -/
def jsToString : Option String → String
  | none => "null"
  | some s => s

/-- JS array indexing: an out-of-range index, negative ones included, yields undefined. -/
def jsIndex {α : Type} (xs : List α) (i : Int) : Option α :=
  if i < 0 then none else xs.get? i.toNat

/-- JSON values occurring in the request bodies built by the code. -/
inductive JValue where
  | str (s : String)
  | bool (b : Bool)
deriving DecidableEq

/-- Opaque configuration strings provided by src/constants.js, a file that is not
among the sources; every definition takes them as a parameter. -/
structure Config where
  NEXUS_HOST : String
  EVENTS_ENDPOINT : String
  LATEST_IMAGE_ENDPOINT : String
  SNAPSHOT_ENDPOINT : String
  OAUTH_URL : String
  JWT_TOKEN_URL : String

/-- Process-environment secrets destructured at the top of Auth.js. -/
structure Env where
  API_KEY : String
  CLIENT_ID : String
  REFRESH_TOKEN : String

/-- The options object handed to the request library: method, url, headers, and an
optional form-encoded body or JSON body (the JSON body is kept as the object literal
the code passes to JSON.stringify). -/
structure RequestOptions where
  method : String
  url : String
  headers : List (String × String)
  form : Option (List (String × String))
  body : Option (List (String × JValue))
deriving DecidableEq

/-- Mutable token state of the Auth class: the fields _accessToken and _jwtToken. -/
structure AuthState where
  accessToken : Option String
  jwtToken : Option String

/-- State produced by the Auth constructor: both token fields are null. -/
def initialAuthState : AuthState := ⟨none, none⟩

/-- Outcome of one already-issued token-exchange request, as seen after JSON parsing:
ok t is a response that parsed, with t the extracted token field (none when the field
is absent, which destructures to undefined); error msg is a network failure, a non-2xx
rejection or malformed JSON, every one of which throws inside the try block. -/
abbrev ExchangeOutcome := Except String (Option String)

/-- Request built by Auth.fetchOAuthToken: POST to the OAuth endpoint with a
form-encoded body holding exactly refresh_token, client_id and grant_type. -/
def oauthRequest (cfg : Config) (env : Env) : RequestOptions :=
  ⟨"POST", cfg.OAUTH_URL,
    [("Content-Type", "application/x-www-form-urlencoded; charset=UTF-8"),
     ("Host", "oauth2.googleapis.com")],
    some [("refresh_token", env.REFRESH_TOKEN),
          ("client_id", env.CLIENT_ID),
          ("grant_type", "refresh_token")],
    none⟩

/-- JSON body built by Auth.fetchJwtToken. The embed_google_oauth_access_token field
is the JSON string true, exactly as the source writes it. -/
def jwtBody (accessToken : String) : List (String × JValue) :=
  [("expire_after", JValue.str "3600s"),
   ("policy_id", JValue.str "authproxy-oauth-policy"),
   ("google_oauth_access_token", JValue.str accessToken),
   ("embed_google_oauth_access_token", JValue.str "true")]

/-- Session-exchange body as the specification words it, with a boolean
embed_google_oauth_access_token field; written only to be compared with jwtBody. -/
def jwtBodySpec (accessToken : String) : List (String × JValue) :=
  [("expire_after", JValue.str "3600s"),
   ("policy_id", JValue.str "authproxy-oauth-policy"),
   ("google_oauth_access_token", JValue.str accessToken),
   ("embed_google_oauth_access_token", JValue.bool true)]

/-- Request built by Auth.fetchJwtToken: POST to the session-token endpoint with the
api-key and bearer headers and the JSON body above. -/
def jwtRequest (cfg : Config) (env : Env) (accessToken : String) : RequestOptions :=
  ⟨"POST", cfg.JWT_TOKEN_URL,
    [("x-goog-api-key", env.API_KEY),
     ("Content-Type", "application/json"),
     ("Accept", "application/json"),
     ("Host", "nestauthproxyservice-pa.googleapis.com"),
     ("Authorization", "Bearer " ++ accessToken)],
    none,
    some (jwtBody accessToken)⟩

/-- What one acquisition call did: the value it resolved with (always ok, because the
catch swallows every exchange failure; the Except type records that throwing was
possible in principle) and the exchange request it issued, none when the call was
answered from the cache. -/
structure CallResult where
  returned : Except JsError (Option String)
  exchanged : Option RequestOptions

/-- Auth.fetchOAuthToken: answer from the cache when _accessToken is truthy; otherwise
issue the refresh exchange, cache and return the parsed access_token field on success,
and on failure log, leave the cache untouched and fall off the end of the function,
resolving undefined. -/
def fetchOAuthToken (cfg : Config) (env : Env) (outcome : ExchangeOutcome)
    (s : AuthState) : AuthState × CallResult :=
  if truthy s.accessToken then
    (s, ⟨Except.ok s.accessToken, none⟩)
  else
    match outcome with
    | Except.ok access_token =>
        (⟨access_token, s.jwtToken⟩,
         ⟨Except.ok access_token, some (oauthRequest cfg env)⟩)
    | Except.error _ =>
        (s, ⟨Except.ok none, some (oauthRequest cfg env)⟩)

/-- Auth.fetchJwtToken: same shape as fetchOAuthToken, with the _jwtToken cache, the
session-exchange request and the parsed jwt field. -/
def fetchJwtToken (cfg : Config) (env : Env) (accessToken : String)
    (outcome : ExchangeOutcome) (s : AuthState) : AuthState × CallResult :=
  if truthy s.jwtToken then
    (s, ⟨Except.ok s.jwtToken, none⟩)
  else
    match outcome with
    | Except.ok jwt =>
        (⟨s.accessToken, jwt⟩,
         ⟨Except.ok jwt, some (jwtRequest cfg env accessToken)⟩)
    | Except.error _ =>
        (s, ⟨Except.ok none, some (jwtRequest cfg env accessToken)⟩)

/-- Run a sequence of fetchOAuthToken calls, each given the outcome its exchange would
have had, threading the token state through and collecting each call result. -/
def runOAuthCalls (cfg : Config) (env : Env) :
    List ExchangeOutcome → AuthState → AuthState × List CallResult
  | [], s => (s, [])
  | o :: os, s =>
      let step := fetchOAuthToken cfg env o s
      let rest := runOAuthCalls cfg env os step.1
      (rest.1, step.2 :: rest.2)

/-- Run a sequence of fetchJwtToken calls; each entry carries the accessToken argument
passed to that call and the outcome its exchange would have had. -/
def runJwtCalls (cfg : Config) (env : Env) :
    List (String × ExchangeOutcome) → AuthState → AuthState × List CallResult
  | [], s => (s, [])
  | c :: cs, s =>
      let step := fetchJwtToken cfg env c.1 c.2 s
      let rest := runJwtCalls cfg env cs step.1
      (rest.1, step.2 :: rest.2)

/-- Nest.getEvents up to the network boundary: with a falsy _jwtToken it throws its
distinguished missing-credential Error synchronously, before building any request;
otherwise it returns the GET request it issues. The start and end parameters appear
nowhere in the body of the source function. -/
def getEvents (cfg : Config) (start end_ : Option Int) (jwtToken : Option String) :
    Except JsError RequestOptions :=
  if !(truthy jwtToken) then
    Except.error (JsError.error
      "Access token is null or undefined call: #fetchAccessToken() to retrieve new OAuth token.")
  else
    Except.ok ⟨"GET", cfg.NEXUS_HOST ++ cfg.EVENTS_ENDPOINT,
      [("Authorization", "Basic " ++ jsToString jwtToken)], none, none⟩

/-- Nest.getLatestSnapshot up to the network boundary: it performs no token check at
all and always returns the GET request it issues, interpolating the token field into
the Authorization header even when the token is null. -/
def getLatestSnapshot (cfg : Config) (jwtToken : Option String) :
    Except JsError RequestOptions :=
  Except.ok ⟨"GET", cfg.NEXUS_HOST ++ cfg.LATEST_IMAGE_ENDPOINT,
    [("Authorization", "Basic " ++ jsToString jwtToken)], none, none⟩

/-- True when the pre-network phase ends with a request being issued rather than a throw. -/
def issuesRequest : Except JsError RequestOptions → Bool
  | Except.ok _ => true
  | Except.error _ => false

/-- Nest.getEvents including a settled network outcome. The try block of the source
wraps only the synchronous construction of the Promise, so a rejection (a network
failure, or a JSON.parse throw inside the then callback, routed to rej by the chained
catch) never reaches the try/catch: the catch block with its this.refreshTokens() call
is dead for such failures, the rejection propagates to the caller of getEvents, and
the token state is untouched. -/
def getEventsRun {α : Type} (cfg : Config) (start end_ : Option Int) (st : AuthState)
    (netResult : Except String (List α)) : AuthState × Except JsError (List α) :=
  if !(truthy st.jwtToken) then
    (st, Except.error (JsError.error
      "Access token is null or undefined call: #fetchAccessToken() to retrieve new OAuth token."))
  else
    match netResult with
    | Except.ok events => (st, Except.ok events)
    | Except.error msg => (st, Except.error (JsError.netError msg))

/-- Nest.getLatestSnapshot including a settled network outcome. On failure the catch
block runs: it logs and then evaluates this.refreshTokens(); no method of that name is
defined on Nest or on Auth (Auth defines only fetchOAuthToken and fetchJwtToken, and
no reset of the cached tokens exists anywhere in the sources), so the call itself
throws a TypeError, and neither token field is cleared. -/
def getLatestSnapshotRun (cfg : Config) (st : AuthState)
    (netResult : Except String String) : AuthState × Except JsError (Option String) :=
  match netResult with
  | Except.ok bodyText => (st, Except.ok (some bodyText))
  | Except.error _ =>
      (st, Except.error (JsError.typeError "this.refreshTokens is not a function"))

/-- The takeWhile predicate of the events pipeline: events.length is at least zero,
which holds for every array. -/
def takeWhilePred {α : Type} (events : List α) : Bool :=
  decide (events.length ≥ 0)

/-- The distinctUntilChanged comparator of the events pipeline. Its source body
compares currEvents.length with lastEvents.length, but no identifier lastEvents is
bound anywhere in Nest.js, so evaluating the body throws a ReferenceError before any
length comparison takes place. -/
def eventsComparator {α : Type} (prevEvents currEvents : List α) : Except JsError Bool :=
  Except.error (JsError.referenceError "lastEvents is not defined")

/-- One distinctUntilChanged step: the first value passes without consulting the
comparator; a later value passes when the comparator answers false on it and the
stored previous value, and a comparator throw becomes a pipeline error delivered to
the subscribers on their error channel. -/
def distinctStep {α : Type} (cmp : List α → List α → Except JsError Bool) :
    Option (List α) → List α → Except JsError Bool
  | none, _ => Except.ok true
  | some prev, curr =>
      match cmp prev curr with
      | Except.error e => Except.error e
      | Except.ok equal => Except.ok (!equal)

/-- The map step of the events pipeline: events[events.length - 1], which is undefined
on an empty array because no guard excludes the empty case before indexing. -/
def mapStep {α : Type} (events : List α) : Option α :=
  jsIndex events ((events.length : Int) - 1)

/-- One tick of the events pipeline after its fetch: takeWhile, then
distinctUntilChanged with the comparator above (prev is the value stored from the last
tick that passed, none on the first tick), then the projection to the last element.
The result is an error when the tick raises, ok none when the tick emits nothing, and
ok (some v) when it emits the JS value v, itself an Option whose none is undefined. -/
def eventsTick {α : Type} (prev : Option (List α)) (curr : List α) :
    Except JsError (Option (Option α)) :=
  if takeWhilePred curr then
    match distinctStep eventsComparator prev curr with
    | Except.error e => Except.error e
    | Except.ok true => Except.ok (some (mapStep curr))
    | Except.ok false => Except.ok none
  else
    Except.ok none

/-- Connection state of one refcounted multicast feed built by the Nest constructor:
subCount is the number of downstream subscribers attached to the subject, and
sourceSubs is the number of subscriptions the refCount operator holds on the upstream
interval chain (it connects on the first subscriber and disconnects on the last, so
this is zero or one in every reachable state). -/
structure FeedState where
  subCount : Nat
  sourceSubs : Nat
deriving DecidableEq

/-- A feed with no subscriber and no running upstream timer. -/
def idleFeed : FeedState := ⟨0, 0⟩

/-- The observable actions on a feed: a subscriber attaching, a subscriber detaching,
and one timer tick carrying the value that the shared fetch of that tick produced. -/
inductive FeedOp (α : Type) where
  | subscribe
  | unsubscribe
  | tick (v : α)

/-- What one action caused: how many upstream fetches were issued, and the values
delivered to subscribers, in subscriber order. -/
structure TickEffect (α : Type) where
  fetches : Nat
  delivered : List α
deriving DecidableEq

/-- One step of the refcounted multicast feed (the multicast and refCount operators
applied to the interval chain in the Nest constructor): subscribing increments the
count and connects the subject to the upstream chain when the count was zero;
unsubscribing decrements the count and tears the upstream subscription down when the
count reaches zero; on a tick every upstream subscription issues one fetch and the
subject delivers the shared value to every attached subscriber. -/
def feedStep {α : Type} (s : FeedState) : FeedOp α → FeedState × TickEffect α
  | FeedOp.subscribe =>
      (⟨s.subCount + 1, if s.subCount = 0 then 1 else s.sourceSubs⟩, ⟨0, []⟩)
  | FeedOp.unsubscribe =>
      (⟨s.subCount - 1, if s.subCount - 1 = 0 then 0 else s.sourceSubs⟩, ⟨0, []⟩)
  | FeedOp.tick v =>
      (s, ⟨s.sourceSubs, List.replicate s.subCount v⟩)

/-- Run a sequence of feed actions, collecting the effect of each. -/
def feedRun {α : Type} (s : FeedState) : List (FeedOp α) → FeedState × List (TickEffect α)
  | [] => (s, [])
  | op :: ops =>
      let step := feedStep s op
      let rest := feedRun step.1 ops
      (rest.1, step.2 :: rest.2)

/-- An action sequence is well formed from a given subscriber count when no
unsubscribe occurs while the count is zero. -/
def wfOps {α : Type} : Nat → List (FeedOp α) → Bool
  | _, [] => true
  | n, FeedOp.subscribe :: ops => wfOps (n + 1) ops
  | n, FeedOp.unsubscribe :: ops => if n = 0 then false else wfOps (n - 1) ops
  | n, FeedOp.tick _ :: ops => wfOps n ops

/-- Concrete configuration fixture for closed statements. -/
def cfgT : Config := ⟨"h", "/events", "/image", "/snap/", "/oauth", "/jwt"⟩

/-- Concrete environment fixture for closed statements. -/
def envT : Env := ⟨"k", "cid", "rt"⟩

/-- Helper: once the cached access token is truthy, any sequence of further
fetchOAuthToken calls leaves the state unchanged and answers every call from the
cache without issuing an exchange. -/
theorem runOAuthCalls_cached (cfg : Config) (env : Env) (outs : List ExchangeOutcome)
    (s : AuthState) (h : truthy s.accessToken = true) :
    runOAuthCalls cfg env outs s
      = (s, outs.map fun _ => ⟨Except.ok s.accessToken, none⟩) := by
  induction outs with
  | nil => rfl
  | cons o os ih => simp [runOAuthCalls, fetchOAuthToken, h, ih]

/-- Helper: once the cached session token is truthy, any sequence of further
fetchJwtToken calls leaves the state unchanged and answers every call from the cache
without issuing an exchange. -/
theorem runJwtCalls_cached (cfg : Config) (env : Env)
    (cs : List (String × ExchangeOutcome)) (s : AuthState)
    (h : truthy s.jwtToken = true) :
    runJwtCalls cfg env cs s
      = (s, cs.map fun _ => ⟨Except.ok s.jwtToken, none⟩) := by
  induction cs with
  | nil => rfl
  | cons c cs ih => simp [runJwtCalls, fetchJwtToken, h, ih]

/-- Helper: along any well-formed action sequence, the upstream source stays
subscribed exactly once while at least one subscriber is attached and is torn down
exactly when the subscriber count is zero. -/
theorem feedRun_source_good {α : Type} (ops : List (FeedOp α)) (s : FeedState)
    (hg : s.sourceSubs = if s.subCount = 0 then 0 else 1)
    (hw : wfOps s.subCount ops = true) :
    (feedRun s ops).1.sourceSubs = if (feedRun s ops).1.subCount = 0 then 0 else 1 := by
  induction ops generalizing s with
  | nil => simpa [feedRun] using hg
  | cons op ops ih =>
    cases op with
    | subscribe =>
      simp only [feedRun, feedStep]
      apply ih
      · by_cases h0 : s.subCount = 0 <;> simp [h0, hg]
      · simpa [wfOps] using hw
    | unsubscribe =>
      simp only [wfOps] at hw
      by_cases h0 : s.subCount = 0
      · simp [h0] at hw
      · simp only [feedRun, feedStep]
        apply ih
        · by_cases h1 : s.subCount - 1 = 0 <;> simp [h0, h1, hg]
        · simpa [h0] using hw
    | tick v =>
      simp only [feedRun, feedStep]
      apply ih
      · exact hg
      · simpa [wfOps] using hw

/-- Claim C1: the specification says a second tick whose fetched sequence has the same
length as the previous one emits nothing, and one with a differing length emits
exactly the last element. In the code the comparator reads the unbound identifier
lastEvents, so in both situations the second tick instead throws a ReferenceError
that terminates the pipeline; in particular the differing-length tick does not emit
the last element. -/
theorem events_second_tick_reference_error :
    eventsTick (some [1, 2]) ([1, 2, 3] : List Nat)
      = Except.error (JsError.referenceError "lastEvents is not defined")
    ∧ eventsTick (some [1, 2]) ([3, 4] : List Nat)
      = Except.error (JsError.referenceError "lastEvents is not defined") :=
  ⟨rfl, rfl⟩

/-- Claim C9: a tick that fetches an empty event sequence and passes the distinctness
filter (the first tick passes it vacuously) is projected through
events[events.length - 1] with no emptiness guard, so the value delivered to
subscribers is undefined. -/
theorem empty_events_tick_emits_undefined :
    eventsTick none ([] : List Nat) = Except.ok (some none)
    ∧ mapStep ([] : List Nat) = none :=
  ⟨rfl, rfl⟩

/-- Claim C10: getEvents ignores its start and end parameters entirely; for every pair
of values of the two parameters the outcome, and in particular the constructed
request, is identical. -/
theorem getEvents_ignores_start_end (cfg : Config) (s1 e1 s2 e2 : Option Int)
    (tok : Option String) :
    getEvents cfg s1 e1 tok = getEvents cfg s2 e2 tok :=
  rfl

/-- Claim C2, counterexample: with a null session token, getLatestSnapshot does not
raise the missing-credential error; it issues its network request regardless,
interpolating null into the Authorization header. -/
theorem getLatestSnapshot_missing_token_no_raise_cex :
    issuesRequest (getLatestSnapshot cfgT none) = true
    ∧ getLatestSnapshot cfgT none
        = Except.ok ⟨"GET", cfgT.NEXUS_HOST ++ cfgT.LATEST_IMAGE_ENDPOINT,
            [("Authorization", "Basic " ++ jsToString none)], none, none⟩
    ∧ jsToString none = "null" :=
  ⟨rfl, rfl, rfl⟩

/-- Claim C2, amended: with an absent session token, getEvents raises its
distinguished missing-credential error synchronously, before any network request,
while getLatestSnapshot performs no credential check and issues its request
regardless, with the absent token interpolated into the Basic Authorization header. -/
theorem credential_guard_amended (cfg : Config) (s1 e1 : Option Int)
    (tok : Option String) (h : truthy tok = false) :
    getEvents cfg s1 e1 tok
      = Except.error (JsError.error
          "Access token is null or undefined call: #fetchAccessToken() to retrieve new OAuth token.")
    ∧ getLatestSnapshot cfg tok
      = Except.ok ⟨"GET", cfg.NEXUS_HOST ++ cfg.LATEST_IMAGE_ENDPOINT,
          [("Authorization", "Basic " ++ jsToString tok)], none, none⟩ := by
  constructor
  · simp [getEvents, h]
  · rfl

/-- Claim C2, witness: the amended statement instantiated at a null token and the
concrete configuration fixture. -/
theorem credential_guard_amended_witness :
    truthy none = false
    ∧ (getEvents cfgT none none none
        = Except.error (JsError.error
            "Access token is null or undefined call: #fetchAccessToken() to retrieve new OAuth token.")
      ∧ getLatestSnapshot cfgT none
        = Except.ok ⟨"GET", cfgT.NEXUS_HOST ++ cfgT.LATEST_IMAGE_ENDPOINT,
            [("Authorization", "Basic " ++ jsToString none)], none, none⟩) :=
  ⟨rfl, credential_guard_amended cfgT none none none rfl⟩

/-- Claim C3: the specification says a failed resource fetch triggers a credential
reset clearing both cached tokens. In the code, a failure of the events fetch
propagates as a plain rejection with the token state untouched (the catch block is
unreachable for it), and a failure of the snapshot fetch reaches a catch block that
calls the nonexistent method this.refreshTokens, throwing a TypeError, again with
both cached tokens left in place; no code path clears either token. -/
theorem fetch_failure_no_reset :
    getLatestSnapshotRun cfgT ⟨some "a", some "j"⟩ (Except.error "ECONNRESET")
      = (⟨some "a", some "j"⟩,
         Except.error (JsError.typeError "this.refreshTokens is not a function"))
    ∧ getEventsRun cfgT none none ⟨some "a", some "j"⟩
        (Except.error "ECONNRESET" : Except String (List Nat))
      = (⟨some "a", some "j"⟩, Except.error (JsError.netError "ECONNRESET")) := by
  constructor
  · rfl
  · simp [getEventsRun, truthy]

/-- Claim C6, counterexample: the session-exchange JSON body built by the code sets
embed_google_oauth_access_token to the JSON string true, not to the boolean true that
the claim states. -/
theorem jwt_body_embed_flag_cex :
    jwtBody "tok" ≠ jwtBodySpec "tok"
    ∧ List.lookup "embed_google_oauth_access_token" (jwtBody "tok")
        = some (JValue.str "true")
    ∧ List.lookup "embed_google_oauth_access_token" (jwtBodySpec "tok")
        = some (JValue.bool true) := by
  refine ⟨by decide, by decide, by decide⟩

/-- Claim C6, amended: the refresh exchange is a POST whose form body consists of
exactly refresh_token, client_id and grant_type with value refresh_token; the session
exchange is a POST carrying an Authorization Bearer header with the access token, the
x-goog-api-key header, and a JSON body specifying expire_after 3600s, the policy id,
the access token as google_oauth_access_token, and embed_google_oauth_access_token
set to the JSON string true rather than the boolean true. -/
theorem exchange_request_shapes (cfg : Config) (env : Env) (tok : String) :
    (oauthRequest cfg env).method = "POST"
    ∧ (oauthRequest cfg env).form
        = some [("refresh_token", env.REFRESH_TOKEN),
                ("client_id", env.CLIENT_ID),
                ("grant_type", "refresh_token")]
    ∧ (oauthRequest cfg env).body = none
    ∧ (jwtRequest cfg env tok).method = "POST"
    ∧ List.lookup "Authorization" (jwtRequest cfg env tok).headers
        = some ("Bearer " ++ tok)
    ∧ List.lookup "x-goog-api-key" (jwtRequest cfg env tok).headers
        = some env.API_KEY
    ∧ (jwtRequest cfg env tok).body = some (jwtBody tok)
    ∧ List.lookup "expire_after" (jwtBody tok) = some (JValue.str "3600s")
    ∧ List.lookup "policy_id" (jwtBody tok) = some (JValue.str "authproxy-oauth-policy")
    ∧ List.lookup "google_oauth_access_token" (jwtBody tok) = some (JValue.str tok)
    ∧ List.lookup "embed_google_oauth_access_token" (jwtBody tok)
        = some (JValue.str "true") := by
  refine ⟨rfl, rfl, rfl, rfl, ?_, ?_, rfl, ?_, ?_, ?_, ?_⟩ <;>
    simp [jwtRequest, jwtBody, List.lookup]

/-- Claim C4: when the first access-token acquisition succeeds with a truthy token,
every subsequent call without an intervening reset returns the identical cached value
and issues no new exchange request; the session-token acquisition behaves the same
way, whatever accessToken arguments and exchange outcomes the later calls would
have had. -/
theorem token_memoization (cfg : Config) (env : Env) (t u a : String)
    (ht : t ≠ "") (hu : u ≠ "")
    (outs : List ExchangeOutcome) (jcalls : List (String × ExchangeOutcome)) :
    runOAuthCalls cfg env (Except.ok (some t) :: outs) initialAuthState
      = (⟨some t, none⟩,
         ⟨Except.ok (some t), some (oauthRequest cfg env)⟩
           :: outs.map fun _ => ⟨Except.ok (some t), none⟩)
    ∧ runJwtCalls cfg env ((a, Except.ok (some u)) :: jcalls) initialAuthState
      = (⟨none, some u⟩,
         ⟨Except.ok (some u), some (jwtRequest cfg env a)⟩
           :: jcalls.map fun _ => ⟨Except.ok (some u), none⟩) := by
  have htt : truthy (some t) = true := by simp [truthy, ht]
  have hut : truthy (some u) = true := by simp [truthy, hu]
  constructor
  · have hc := runOAuthCalls_cached cfg env outs ⟨some t, none⟩ htt
    simp [runOAuthCalls, fetchOAuthToken, initialAuthState, truthy, hc]
  · have hc := runJwtCalls_cached cfg env jcalls ⟨none, some u⟩ hut
    simp [runJwtCalls, fetchJwtToken, initialAuthState, truthy, hc]

/-- Claim C4, witness: the memoization statement instantiated with concrete tokens,
one later call per kind, and the concrete fixtures. -/
theorem token_memoization_witness :
    ("tok" ≠ "") ∧ ("jwt" ≠ "")
    ∧ (runOAuthCalls cfgT envT (Except.ok (some "tok") :: [Except.error "boom"]) initialAuthState
        = (⟨some "tok", none⟩,
           ⟨Except.ok (some "tok"), some (oauthRequest cfgT envT)⟩
             :: ([Except.error "boom"] : List ExchangeOutcome).map
                  fun _ => ⟨Except.ok (some "tok"), none⟩)
      ∧ runJwtCalls cfgT envT (("tok", Except.ok (some "jwt")) :: [("tok", Except.error "boom")]) initialAuthState
        = (⟨none, some "jwt"⟩,
           ⟨Except.ok (some "jwt"), some (jwtRequest cfgT envT "tok")⟩
             :: ([("tok", Except.error "boom")] : List (String × ExchangeOutcome)).map
                  fun _ => ⟨Except.ok (some "jwt"), none⟩)) :=
  ⟨by decide, by decide,
    token_memoization cfgT envT "tok" "jwt" "tok" (by decide) (by decide)
      [Except.error "boom"] [("tok", Except.error "boom")]⟩

/-- Claim C5: a failing token exchange (network error, non-2xx rejection or malformed
JSON) does not raise to the caller of the acquisition: the call resolves ok with an
undefined token, for both the access-token and the session-token acquisition. -/
theorem exchange_failure_resolves_undefined (cfg : Config) (env : Env)
    (s : AuthState) (msg a : String)
    (h1 : truthy s.accessToken = false) (h2 : truthy s.jwtToken = false) :
    fetchOAuthToken cfg env (Except.error msg) s
      = (s, ⟨Except.ok none, some (oauthRequest cfg env)⟩)
    ∧ fetchJwtToken cfg env a (Except.error msg) s
      = (s, ⟨Except.ok none, some (jwtRequest cfg env a)⟩) := by
  constructor
  · simp [fetchOAuthToken, h1]
  · simp [fetchJwtToken, h2]

/-- Claim C5, witness: the failing-exchange behavior instantiated at the constructor
state, a concrete error and the concrete fixtures. -/
theorem exchange_failure_resolves_undefined_witness :
    truthy initialAuthState.accessToken = false
    ∧ truthy initialAuthState.jwtToken = false
    ∧ (fetchOAuthToken cfgT envT (Except.error "ETIMEDOUT") initialAuthState
        = (initialAuthState, ⟨Except.ok none, some (oauthRequest cfgT envT)⟩)
      ∧ fetchJwtToken cfgT envT "tok" (Except.error "ETIMEDOUT") initialAuthState
        = (initialAuthState, ⟨Except.ok none, some (jwtRequest cfgT envT "tok")⟩)) :=
  ⟨rfl, rfl,
    exchange_failure_resolves_undefined cfgT envT initialAuthState "ETIMEDOUT" "tok" rfl rfl⟩

/-- Claim C8: a failed exchange leaves the corresponding cached token field exactly as
it was (in particular still null when it was null), so the next acquisition call from
that state attempts the exchange again instead of returning a stale cached failure. -/
theorem failed_exchange_cache_unchanged (cfg : Config) (env : Env) (s : AuthState)
    (msg a : String) (o2 : ExchangeOutcome)
    (h1 : truthy s.accessToken = false) (h2 : truthy s.jwtToken = false) :
    (fetchOAuthToken cfg env (Except.error msg) s).1 = s
    ∧ (fetchOAuthToken cfg env o2 s).2.exchanged.isSome = true
    ∧ (fetchJwtToken cfg env a (Except.error msg) s).1 = s
    ∧ (fetchJwtToken cfg env a o2 s).2.exchanged.isSome = true := by
  cases o2 <;> simp [fetchOAuthToken, fetchJwtToken, h1, h2]

/-- Claim C8, witness: the unchanged-cache statement instantiated at the constructor
state with a failing first outcome and an ok second outcome. -/
theorem failed_exchange_cache_unchanged_witness :
    truthy initialAuthState.accessToken = false
    ∧ truthy initialAuthState.jwtToken = false
    ∧ ((fetchOAuthToken cfgT envT (Except.error "boom") initialAuthState).1 = initialAuthState
      ∧ (fetchOAuthToken cfgT envT (Except.ok (some "t2")) initialAuthState).2.exchanged.isSome = true
      ∧ (fetchJwtToken cfgT envT "tok" (Except.error "boom") initialAuthState).1 = initialAuthState
      ∧ (fetchJwtToken cfgT envT "tok" (Except.ok (some "t2")) initialAuthState).2.exchanged.isSome = true) :=
  ⟨rfl, rfl,
    failed_exchange_cache_unchanged cfgT envT initialAuthState "boom" "tok"
      (Except.ok (some "t2")) rfl rfl⟩

/-- Claim C7: with two subscribers attached, a tick issues exactly one upstream fetch
and delivers the same value to both subscribers; and along any well-formed action
sequence the upstream source is subscribed exactly while the subscriber count is
positive, so it is torn down exactly when the count returns to zero. -/
theorem multicast_sharing (α : Type) (v : α) (ops : List (FeedOp α))
    (hw : wfOps 0 ops = true) :
    (feedRun idleFeed [FeedOp.subscribe, FeedOp.subscribe, FeedOp.tick v]).2
      = [⟨0, []⟩, ⟨0, []⟩, ⟨1, [v, v]⟩]
    ∧ ((feedRun idleFeed ops).1.sourceSubs = 0 ↔ (feedRun idleFeed ops).1.subCount = 0) := by
  constructor
  · simp [feedRun, feedStep, idleFeed, List.replicate]
  · have h := feedRun_source_good ops idleFeed (by simp [idleFeed]) hw
    constructor
    · intro hs
      by_contra hne
      rw [h, if_neg hne] at hs
      exact one_ne_zero hs
    · intro hc
      rw [h, if_pos hc]

/-- Claim C7, witness: the multicast statement instantiated with natural-number values
and a concrete well-formed subscribe, tick, unsubscribe sequence. -/
theorem multicast_sharing_witness :
    wfOps 0 [FeedOp.subscribe, FeedOp.tick (0 : Nat), FeedOp.unsubscribe] = true
    ∧ ((feedRun idleFeed [FeedOp.subscribe, FeedOp.subscribe, FeedOp.tick (0 : Nat)]).2
        = [⟨0, []⟩, ⟨0, []⟩, ⟨1, [0, 0]⟩]
      ∧ ((feedRun idleFeed [FeedOp.subscribe, FeedOp.tick (0 : Nat), FeedOp.unsubscribe]).1.sourceSubs = 0
          ↔ (feedRun idleFeed [FeedOp.subscribe, FeedOp.tick (0 : Nat), FeedOp.unsubscribe]).1.subCount = 0)) :=
  ⟨by decide,
    multicast_sharing Nat 0 [FeedOp.subscribe, FeedOp.tick 0, FeedOp.unsubscribe] (by decide)⟩
